import Mathlib

/-!
# Verification of the approaching-birthday notification pipeline

Shallow embedding of `src/modules/notifications/notificationService.ts`:
the eligibility resolver (`getApproachingBirthdays`), the batch dispatcher
(`sendExpoNotifications`) and the receipt reconciler (`handleExpoReceipts`),
together with the external collaborators they call (MongoDB date operators,
the push gateway chunking functions, and the ticket cache).

Machine time is modelled as `Int` milliseconds since the Unix epoch, exactly
as JavaScript `Date.getTime()` exposes it.  Timezones are modelled as a map
from the timezone string stored in a user profile to a fixed offset east of
UTC in minutes (the pipeline's claims involve no DST transition, so a fixed
offset per name suffices); the map is a parameter of every definition that
needs it.
-/

/-! ## Calendar primitives

MongoDB's `$dateFromParts`, `$year`, `$month`, `$dayOfMonth` and `$dateDiff`
are external collaborators (the aggregation pipeline runs inside MongoDB).
They are embedded by their documented semantics over the proleptic Gregorian
calendar.  `civilFromDays` / `daysFromCivil` convert between a day count
since 1970-01-01 and a civil date; they use truncating `Int.tdiv`, whose
negative operands are pre-adjusted so the result matches floor division, the
standard construction for these conversions. -/

/-- Civil date `(year, month, day)` of the day numbered `z0`
(days since 1970-01-01). -/
def civilFromDays (z0 : Int) : Int × Int × Int :=
  let z := z0 + 719468
  let era := Int.tdiv (if 0 ≤ z then z else z - 146096) 146097
  let doe := z - era * 146097
  let yoe := Int.tdiv (doe - Int.tdiv doe 1460 + Int.tdiv doe 36524 - Int.tdiv doe 146096) 365
  let y := yoe + era * 400
  let doy := doe - (365 * yoe + Int.tdiv yoe 4 - Int.tdiv yoe 100)
  let mp := Int.tdiv (5 * doy + 2) 153
  let d := doy - Int.tdiv (153 * mp + 2) 5 + 1
  let m := mp + (if mp < 10 then 3 else -9)
  (y + (if m ≤ 2 then 1 else 0), m, d)

/-- Day number (days since 1970-01-01) of the civil date `y0-m-d`.
An out-of-range day such as February 29 of a non-leap year carries over into
the following month, matching MongoDB's `$dateFromParts` coercion. -/
def daysFromCivil (y0 m d : Int) : Int :=
  let y := y0 - (if m ≤ 2 then 1 else 0)
  let era := Int.tdiv (if 0 ≤ y then y else y - 399) 400
  let yoe := y - era * 400
  let doy := Int.tdiv (153 * (m + (if 2 < m then -3 else 9)) + 2) 5 + d - 1
  let doe := yoe * 365 + Int.tdiv yoe 4 - Int.tdiv yoe 100 + doy
  era * 146097 + doe - 719468

/-- `$year` of an instant, interpreted in UTC (the pipeline passes no
timezone to `$year`/`$month`/`$dayOfMonth`, so MongoDB uses UTC). -/
def yearOfInstant (t : Int) : Int := (civilFromDays (Int.fdiv t 86400000)).1

/-- `$month` of an instant, interpreted in UTC. -/
def monthOfInstant (t : Int) : Int := (civilFromDays (Int.fdiv t 86400000)).2.1

/-- `$dayOfMonth` of an instant, interpreted in UTC. -/
def dayOfInstant (t : Int) : Int := (civilFromDays (Int.fdiv t 86400000)).2.2

/-- `$dateFromParts` with a `timezone`: the instant of midnight (00:00) of
the civil date `y-m-d` in a timezone `offMin` minutes east of UTC. -/
def dateFromParts (y m d offMin : Int) : Int :=
  daysFromCivil y m d * 86400000 - offMin * 60000

/-- `$dateDiff` with `unit: 'hour'` and a `timezone`: MongoDB counts the
number of hour boundaries (taken in the given timezone) crossed between the
two instants, i.e. it truncates each instant to the hour before
differencing — it does not measure elapsed time. -/
def dateDiffHour (startD endD offMin : Int) : Int :=
  Int.fdiv (endD + offMin * 60000) 3600000 - Int.fdiv (startD + offMin * 60000) 3600000

/-! ## Data model

Documents of the collections the aggregation reads.  `_id` values are
modelled as `Nat`; the service stringifies them at its boundary. -/

/-- A document of the `users` collection (`src/models/user.ts`), restricted
to the fields the pipeline reads. -/
structure UserDoc where
  _id : Nat
  email : String
deriving DecidableEq, Repr

/-- A document of the `userprofiles` collection, restricted to the fields
the pipeline reads. -/
structure UserProfileDoc where
  user : Nat
  emailNotifications : Bool
  pushNotifications : Bool
  timezone : String
deriving DecidableEq, Repr

/-- A document of the `friends` collection, restricted to the fields the
pipeline reads.  `dob` is the stored date of birth as an instant. -/
structure FriendDoc where
  _id : Nat
  user : Nat
  name : String
  dob : Int
deriving DecidableEq, Repr

/-- A document of the `notifications` collection, restricted to the fields
the suppression lookup reads. -/
structure NotificationDoc where
  userId : Nat
  friendId : Nat
  dateSent : Int
deriving DecidableEq, Repr

/-- A document of the `deviceinfos` collection, restricted to the fields the
device lookup reads. -/
structure DeviceDoc where
  userId : Nat
  deviceToken : String
deriving DecidableEq, Repr

/-- The collections visible to the aggregation. -/
structure DB where
  users : List UserDoc
  userprofiles : List UserProfileDoc
  friends : List FriendDoc
  notifications : List NotificationDoc
  deviceinfos : List DeviceDoc
deriving Repr

/-- The row shape after the profile and friend `$lookup`/`$unwind` stages. -/
structure Row3 where
  user : UserDoc
  userProfile : UserProfileDoc
  friends : FriendDoc
deriving DecidableEq, Repr

/-- The row shape after the four `$addFields` stages. -/
structure Row7 extends Row3 where
  thisYearBirthday : Int
  nextYearBirthday : Int
  upcomingBirthday : Int
  hoursUntilBirthday : Int
deriving DecidableEq, Repr

/-- The element type returned by `getApproachingBirthdays`
(`IApproachingBirthday` in the source). -/
structure IApproachingBirthday where
  userId : String
  email : String
  token : Option String
  friendId : String
  friendName : String
  hoursUntil : Int
  emailNotifications : Bool
  pushNotifications : Bool
deriving DecidableEq, Repr

/-! ## Eligibility resolver (`getApproachingBirthdays`, lines 16-172)

Each definition below embeds one (or one group of) aggregation stage(s), in
pipeline order. -/

/-- Stages 1-2: `$lookup` of `userprofiles` on `user == _id` followed by
`$unwind` — one row per (user, profile) pair. -/
def usersWithProfiles (db : DB) : List (UserDoc × UserProfileDoc) :=
  db.users.flatMap fun u =>
    (db.userprofiles.filter fun p => p.user == u._id).map fun p => (u, p)

/-- Stage 3: `$match` on `emailNotifications: true` `$or`
`pushNotifications: true`. -/
def notificationEnabled (db : DB) : List (UserDoc × UserProfileDoc) :=
  (usersWithProfiles db).filter fun up =>
    up.2.emailNotifications || up.2.pushNotifications

/-- Stages 4-5: `$lookup` of `friends` on `user == _id` followed by
`$unwind` — one row per (user, profile, friend) triple. -/
def withFriends (db : DB) : List Row3 :=
  (notificationEnabled db).flatMap fun up =>
    (db.friends.filter fun f => f.user == up.1._id).map fun f =>
      { user := up.1, userProfile := up.2, friends := f }

/-- `$addFields thisYearBirthday`: `$dateFromParts` of the current UTC year,
the UTC month and day-of-month of the friend's `dob`, in the user profile's
timezone (lines 55-66). -/
def thisYearBirthdayOf (now : Int) (tz : String → Int) (r : Row3) : Int :=
  dateFromParts (yearOfInstant now) (monthOfInstant r.friends.dob)
    (dayOfInstant r.friends.dob) (tz r.userProfile.timezone)

/-- `$addFields nextYearBirthday`: same with the year advanced by one
(lines 67-78). -/
def nextYearBirthdayOf (now : Int) (tz : String → Int) (r : Row3) : Int :=
  dateFromParts (yearOfInstant now + 1) (monthOfInstant r.friends.dob)
    (dayOfInstant r.friends.dob) (tz r.userProfile.timezone)

/-- `$addFields upcomingBirthday`: `$cond` — next year's occurrence if this
year's is `$lt` the current instant, else this year's (lines 79-89). -/
def upcomingBirthdayOf (now : Int) (tz : String → Int) (r : Row3) : Int :=
  if thisYearBirthdayOf now tz r < now then nextYearBirthdayOf now tz r
  else thisYearBirthdayOf now tz r

/-- `$addFields hoursUntilBirthday`: `$dateDiff` in hours from the current
instant to the upcoming birthday, in the profile's timezone (lines 90-102). -/
def hoursUntilBirthdayOf (now : Int) (tz : String → Int) (r : Row3) : Int :=
  dateDiffHour now (upcomingBirthdayOf now tz r) (tz r.userProfile.timezone)

/-- The four `$addFields` stages combined on one row. -/
def addBirthdayFields (now : Int) (tz : String → Int) (r : Row3) : Row7 :=
  { toRow3 := r
    thisYearBirthday := thisYearBirthdayOf now tz r
    nextYearBirthday := nextYearBirthdayOf now tz r
    upcomingBirthday := upcomingBirthdayOf now tz r
    hoursUntilBirthday := hoursUntilBirthdayOf now tz r }

/-- Pipeline state after the `$addFields` stages (lines 55-102). -/
def stage7 (db : DB) (now : Int) (tz : String → Int) : List Row7 :=
  (withFriends db).map (addBirthdayFields now tz)

/-- Stage `$match hoursUntilBirthday $lte cutoffHours` (lines 103-108). -/
def stage8 (db : DB) (now : Int) (tz : String → Int) (cutoffHours : Int) : List Row7 :=
  (stage7 db now tz).filter fun r => decide (r.hoursUntilBirthday ≤ cutoffHours)

/-- The `recentNotifications` `$lookup` sub-pipeline (lines 110-129):
notifications of this (user, friend) pair sent strictly after
`now - lastNotificationClearance hours`. -/
def recentNotifications (db : DB) (now clearance : Int) (r : Row7) : List NotificationDoc :=
  db.notifications.filter fun n =>
    n.userId == r.userProfile.user && n.friendId == r.friends._id &&
      decide (now - clearance * 3600000 < n.dateSent)

/-- Stage `$match recentNotifications $size 0` (line 131). -/
def stage10 (db : DB) (now : Int) (tz : String → Int) (cutoffHours clearance : Int) : List Row7 :=
  (stage8 db now tz cutoffHours).filter fun r =>
    (recentNotifications db now clearance r).length == 0

/-- Stages `$lookup deviceinfos` + `$unwind` with
`preserveNullAndEmptyArrays: true` (lines 132-143): a user with no device
keeps one row with no device, a user with devices gets one row per device. -/
def withDevice (db : DB) (now : Int) (tz : String → Int) (cutoffHours clearance : Int) :
    List (Row7 × Option DeviceDoc) :=
  (stage10 db now tz cutoffHours clearance).flatMap fun r =>
    match db.deviceinfos.filter (fun d => d.userId == r.user._id) with
    | [] => [(r, none)]
    | d :: ds => (d :: ds).map fun d2 => (r, some d2)

/-- The `$project` stage (lines 144-156) combined with the service's final
`.map` (lines 158-167), which stringifies the ids. -/
def projectRow (p : Row7 × Option DeviceDoc) : IApproachingBirthday :=
  { userId := toString p.1.userProfile.user
    email := p.1.user.email
    token := p.2.map (fun d => d.deviceToken)
    friendId := toString p.1.friends._id
    friendName := p.1.friends.name
    hoursUntil := p.1.hoursUntilBirthday
    emailNotifications := p.1.userProfile.emailNotifications
    pushNotifications := p.1.userProfile.pushNotifications }

/-- The whole aggregation applied to a database snapshot. -/
def getApproachingBirthdaysRows (db : DB) (now : Int) (tz : String → Int)
    (cutoffHours clearance : Int) : List IApproachingBirthday :=
  (withDevice db now tz cutoffHours clearance).map projectRow

/-- `getApproachingBirthdays` (lines 16-172).  The awaited aggregation is
the one fallible operation in the body; the `try`/`catch` turns its failure
into `console.error` plus an empty list.  The result pairs the returned list
with the `console.error` log.  In the source `cutoffHours` defaults to 96
and `lastNotificationClearance` to 24. -/
def getApproachingBirthdays (query : Except String DB) (now : Int) (tz : String → Int)
    (cutoffHours clearance : Int) : List IApproachingBirthday × List String :=
  match query with
  | .ok db => (getApproachingBirthdaysRows db now tz cutoffHours clearance, [])
  | .error e => ([], ["console.error: " ++ e])

/-! ## Push gateway (expo-server-sdk, external collaborator)

Message, ticket and receipt shapes carry exactly the fields the service
reads.  `chunkItems` embeds the SDK's chunking loop (push a chunk whenever
it reaches the limit, push the final partial chunk if non-empty); with the
scalar `to` fields this service sends, `chunkPushNotifications` weighs every
message as one recipient, so it reduces to this plain chunking. -/

/-- The provider message object built by `sendExpoNotifications`
(lines 181-185). -/
structure ExpoPushMessage where
  «to» : Option String
  sound : String
  body : String
deriving DecidableEq, Repr

/-- A submission ticket.  The dispatcher stores them; the reconciler reads
only `id` (a ticket that failed to enqueue has error fields and no id). -/
structure ExpoPushTicket where
  status : String
  id : Option String
  message : Option String
deriving DecidableEq, Repr

/-- The `details` object of a receipt; the reconciler reads
`details.error`. -/
structure PushReceiptDetails where
  error : Option String
deriving DecidableEq, Repr

/-- A delivery receipt as returned by the gateway. -/
structure PushReceipt where
  status : String
  message : Option String
  details : Option PushReceiptDetails
deriving DecidableEq, Repr

/-- The SDK's chunking loop: `chunk` holds the current chunk in reverse,
`cnt` its length; a chunk is flushed as soon as it reaches `size`, and a
non-empty trailing chunk is flushed at the end. -/
def chunkItems (size : Nat) : List α → List α → Nat → List (List α)
  | [], chunk, cnt => if cnt == 0 then [] else [chunk.reverse]
  | x :: xs, chunk, cnt =>
    if size ≤ cnt + 1 then (x :: chunk).reverse :: chunkItems size xs [] 0
    else chunkItems size xs (x :: chunk) (cnt + 1)

/-- `expo.chunkPushNotifications`: chunk limit 100 messages. -/
def chunkPushNotifications (messages : List ExpoPushMessage) : List (List ExpoPushMessage) :=
  chunkItems 100 messages [] 0

/-- `expo.chunkPushNotificationReceiptIds`: chunk limit 300 receipt ids. -/
def chunkPushNotificationReceiptIds (ids : List String) : List (List String) :=
  chunkItems 300 ids [] 0

/-! ## Ticket store (`ticketCache`, `src/utilities/cache`)

The cache module itself is not under `src/`; per the spec (§4.3) it is a
plain in-memory string-keyed store with `set`/`get` and no other operation,
so it is modelled as a function `String → Option` value.  The only values
the service ever stores are `JSON.stringify` images of ticket arrays, and
the reconciler immediately `JSON.parse`s them back, so the serialized string
is modelled abstractly by the ticket list it denotes; `JSON.parse` of an
absent (`undefined`) value throws, which the model surfaces as an error. -/

/-- A `JSON.stringify` image of a ticket array, identified by the array it
serializes. -/
structure SerializedTickets where
  tickets : List ExpoPushTicket
deriving DecidableEq, Repr

/-- `JSON.parse(ticketCache.get(identifier)!)` (line 215): parsing the
stored string recovers the ticket array; parsing an absent entry is
`JSON.parse(undefined)`, which throws a `SyntaxError`. -/
def jsonParseTickets : Option SerializedTickets → Except String (List ExpoPushTicket)
  | none => .error "SyntaxError: Unexpected token u in JSON at position 0"
  | some s => .ok s.tickets

/-! ## Batch dispatcher (`sendExpoNotifications`, lines 174-210) -/

/-- JavaScript truthiness of `item.token` in `!!item.token` (line 177):
`null`/`undefined` and the empty string are falsy, every other string is
truthy. -/
def tokenTruthy : Option String → Bool
  | none => false
  | some s => !(s == "")

/-- An apostrophe, kept as a named constant so the message template can be
assembled from plain string literals. -/
def apostrophe : String := String.singleton (Char.ofNat 39)

/-- The message body template of line 184:
`` `${item.friendName}'s birthday is ${item.hoursUntil} hours away!` ``. -/
def birthdayBody (friendName : String) (hoursUntil : Int) : String :=
  friendName ++ apostrophe ++ "s birthday is " ++ toString hoursUntil ++ " hours away!"

/-- One provider message for one eligible item (lines 181-185). -/
def mkPushMessage (item : IApproachingBirthday) : ExpoPushMessage :=
  { «to» := item.token
    sound := "default"
    body := birthdayBody item.friendName item.hoursUntil }

/-- Lines 176-186: filter to push-enabled items with a truthy token, then
build one message per surviving item, in order. -/
def buildMessages (list : List IApproachingBirthday) : List ExpoPushMessage :=
  (list.filter fun item => item.pushNotifications && tokenTruthy item.token).map mkPushMessage

/-- The detached submission loop (lines 190-202), one iteration per chunk:
`submit` is `expo.sendPushNotificationsAsync`; a successful chunk appends
its tickets to the shared array, a failed chunk is caught and logged and
contributes nothing.  Returns (final tickets, error logs, chunks for which a
submission call was made), each in iteration order. -/
def runSubmitLoop (submit : List ExpoPushMessage → Except String (List ExpoPushTicket)) :
    List (List ExpoPushMessage) → List ExpoPushTicket × List String × List (List ExpoPushMessage)
  | [] => ([], [], [])
  | chunk :: rest =>
    let r := runSubmitLoop submit rest
    match submit chunk with
    | .ok ticketChunk => (ticketChunk ++ r.1, r.2.1, chunk :: r.2.2)
    | .error e => (r.1, ("console.error: " ++ e) :: r.2.1, chunk :: r.2.2)

/-- The contents of the shared `tickets` array at the moment
`ticketCache.set(identifier, JSON.stringify(tickets))` (line 206) executes.
The submission loop lives in an `async` IIFE (lines 189-203) that is started
but never awaited: its body runs synchronously only until its first `await`.
With no chunks the loop body finishes synchronously without ever pushing;
with at least one chunk the IIFE suspends at the first
`await expo.sendPushNotificationsAsync(chunk)` — which precedes every
`tickets.push` — and control returns to the caller, which runs lines
204-209 (including the cache write) before any ticket has been pushed.
Either way the array serialized into the cache is empty. -/
def ticketsWhenCacheSetRuns (chunks : List (List ExpoPushMessage)) : List ExpoPushTicket :=
  match chunks with
  | [] => []
  | _ :: _ => []

/-- Observable outcome of one `sendExpoNotifications` call. -/
structure DispatchResult where
  identifier : String
  storedValue : SerializedTickets
  finalTickets : List ExpoPushTicket
  logs : List String
  submitCalls : List (List ExpoPushMessage)
  scheduledReconcileId : String
  scheduledDelayMs : Nat
deriving Repr

/-- `sendExpoNotifications` (lines 174-210).  `nowMs` is `Date.now()`.
The `Except` result records whether an exception escapes the call: the body
has no `try`/`catch` of its own, but its only fallible operation — chunk
submission — happens inside the detached loop's per-chunk `try`/`catch`, so
the body itself performs only total operations and returns normally.
`storedValue` is the value written to the ticket cache under `identifier`,
`finalTickets` the contents of the `tickets` array once the detached loop
has finished, `scheduledReconcileId`/`scheduledDelayMs` the
`setTimeout(() => handleExpoReceipts(identifier), 60 * 1000)` of
lines 207-209. -/
def sendExpoNotifications (list : List IApproachingBirthday)
    (submit : List ExpoPushMessage → Except String (List ExpoPushTicket))
    (nowMs : Int) : Except String DispatchResult :=
  let messages := buildMessages list
  let chunks := chunkPushNotifications messages
  let detached := runSubmitLoop submit chunks
  let identifier := toString nowMs
  .ok
    { identifier := identifier
      storedValue := { tickets := ticketsWhenCacheSetRuns chunks }
      finalTickets := detached.1
      logs := detached.2.1
      submitCalls := detached.2.2
      scheduledReconcileId := identifier
      scheduledDelayMs := 60000 }

/-! ## Receipt reconciler (`handleExpoReceipts`, lines 212-262) -/

/-- JavaScript string rendering of a possibly-absent value, as template
interpolation produces it. -/
def jsShow : Option String → String
  | none => "undefined"
  | some s => s

/-- Lines 216-223: collect `ticket.id` for every ticket whose `id` is
truthy (an absent or empty id is skipped). -/
def collectReceiptIds : List ExpoPushTicket → List String
  | [] => []
  | t :: ts =>
    match t.id with
    | some i => if i == "" then collectReceiptIds ts else i :: collectReceiptIds ts
    | none => collectReceiptIds ts

/-- Lines 235-253: classification of one returned receipt into its
`console.error` output.  `status === 'ok'` produces nothing; existing error
logging interpolates the receipt's message, plus the error code when
`details && details.error` is truthy. -/
def classifyReceipt (p : String × PushReceipt) : List String :=
  if p.2.status == "ok" then []
  else if p.2.status == "error" then
    ("console.error: There was an error sending a notification: " ++ jsShow p.2.message) ::
      (match p.2.details with
       | some d =>
         match d.error with
         | some c => if c == "" then [] else ["console.error: The error code is " ++ c]
         | none => []
       | none => [])
  else []

/-- The receipt-polling loop (lines 228-257), one iteration per receipt-id
chunk: `fetch` is `expo.getPushNotificationReceiptsAsync`; a failed fetch is
caught and logged and the loop continues.  Returns (chunks for which a fetch
call was made, logs), each in iteration order. -/
def pollLoop (fetch : List String → Except String (List (String × PushReceipt))) :
    List (List String) → List (List String) × List String
  | [] => ([], [])
  | chunk :: rest =>
    let r := pollLoop fetch rest
    match fetch chunk with
    | .ok receipts => (chunk :: r.1, receipts.flatMap classifyReceipt ++ r.2)
    | .error e => (chunk :: r.1, ("console.error: " ++ e) :: r.2)

/-- Observable outcome of one `handleExpoReceipts` call: the receipt-id
chunks actually polled, the `console.error` log, and the ticket store as the
call leaves it (the function only ever reads the store). -/
structure ReconcileResult where
  polls : List (List String)
  logs : List String
  store : String → Option SerializedTickets

/-- The body of `handleExpoReceipts`'s outer `try` block (lines 214-257).
Its one uncaught fallible operation is the `JSON.parse` of line 215, which
precedes all polling and logging; every later failure is absorbed by the
per-chunk `catch`. -/
def handleExpoReceiptsBody (cache : String → Option SerializedTickets) (identifier : String)
    (fetch : List String → Except String (List (String × PushReceipt))) :
    Except String ReconcileResult :=
  match jsonParseTickets (cache identifier) with
  | .error e => .error e
  | .ok tickets =>
    let receiptIds := collectReceiptIds tickets
    let receiptIdChunks := chunkPushNotificationReceiptIds receiptIds
    let polled := pollLoop fetch receiptIdChunks
    .ok { polls := polled.1, logs := polled.2, store := cache }

/-- `handleExpoReceipts` (lines 212-262): the outer `try`/`catch` turns any
escaping failure of the body into a `console.error` and a normal return.
The `Except` result records whether an exception escapes the public call. -/
def handleExpoReceipts (cache : String → Option SerializedTickets) (identifier : String)
    (fetch : List String → Except String (List (String × PushReceipt))) :
    Except String ReconcileResult :=
  match handleExpoReceiptsBody cache identifier fetch with
  | .ok r => .ok r
  | .error e => .ok { polls := [], logs := ["console.error: " ++ e], store := cache }

/-- The ticket store as a completed `handleExpoReceipts` call leaves it. -/
def reconcileStoreAfter (cache : String → Option SerializedTickets) (identifier : String)
    (fetch : List String → Except String (List (String × PushReceipt))) :
    String → Option SerializedTickets :=
  match handleExpoReceipts cache identifier fetch with
  | .ok r => r.store
  | .error _ => cache

/-! ## Claim-side definition for the refinement comparison of C10 -/

/-- The C10 claim's reading of `hoursUntil`, following the claim's words:
"the whole-hour difference from now to that midnight instant" — the number
of whole hours of elapsed time between the two instants. -/
def specWholeHourDifference (now occurrence : Int) : Int :=
  Int.fdiv (occurrence - now) 3600000

/-! ## Concrete scenario data used by witnesses and counterexamples -/

/-- Timezone map sending every name to UTC. -/
def tzZero : String → Int := fun _ => 0

/-- Timezone map sending `"B"` to UTC-1 and every other name to UTC. -/
def tzMix : String → Int := fun s => if s = "B" then -60 else 0

def user1 : UserDoc := { _id := 1, email := "u1@example.com" }

def profile1 : UserProfileDoc :=
  { user := 1, emailNotifications := false, pushNotifications := true, timezone := "UTC" }

/-- Friend of `user1` whose date of birth is 1970-01-10 00:00 UTC. -/
def friend1 : FriendDoc := { _id := 11, user := 1, name := "F1", dob := 777600000 }

def user2 : UserDoc := { _id := 2, email := "u2@example.com" }

def profile2 : UserProfileDoc :=
  { user := 2, emailNotifications := true, pushNotifications := false, timezone := "B" }

/-- Friend of `user2` with the same date of birth as `friend1`. -/
def friend2 : FriendDoc := { _id := 21, user := 2, name := "F2", dob := 777600000 }

def device1 : DeviceDoc := { userId := 1, deviceToken := "tokA" }

/-- Two users, their profiles and friends, one registered device, no
notification history.  Evaluated at instant 0 (1970-01-01 00:00 UTC) under
`tzMix`, `user1`/`friend1` sits exactly 216 hours before its upcoming
birthday and `user2`/`friend2` exactly 217. -/
def db4 : DB :=
  { users := [user1, user2], userprofiles := [profile1, profile2]
    friends := [friend1, friend2], notifications := [], deviceinfos := [device1] }

/-- The `user1`/`friend1` row of `stage7 db4 0 tzMix`. -/
def row41 : Row7 :=
  { user := user1, userProfile := profile1, friends := friend1
    thisYearBirthday := 777600000, nextYearBirthday := 32313600000
    upcomingBirthday := 777600000, hoursUntilBirthday := 216 }

/-- The `user2`/`friend2` row of `stage7 db4 0 tzMix`. -/
def row42 : Row7 :=
  { user := user2, userProfile := profile2, friends := friend2
    thisYearBirthday := 781200000, nextYearBirthday := 32317200000
    upcomingBirthday := 781200000, hoursUntilBirthday := 217 }

/-- The single element of `getApproachingBirthdaysRows db4 0 tzMix 216 24`. -/
def out41 : IApproachingBirthday :=
  { userId := "1", email := "u1@example.com", token := some "tokA", friendId := "11"
    friendName := "F1", hoursUntil := 216, emailNotifications := false
    pushNotifications := true }

/-- A notification for the (`user1`, `friend1`) pair sent one minute after
the clearance threshold `0 - 24 * 3600000`. -/
def notif1 : NotificationDoc := { userId := 1, friendId := 11, dateSent := -86340000 }

/-- A notification for the (`user2`, `friend2`) pair sent one minute before
the clearance threshold. -/
def notif2 : NotificationDoc := { userId := 2, friendId := 21, dateSent := -86460000 }

/-- `db4` extended with one notification on either side of the clearance
boundary. -/
def db5 : DB :=
  { users := [user1, user2], userprofiles := [profile1, profile2]
    friends := [friend1, friend2], notifications := [notif1, notif2]
    deviceinfos := [device1] }

/-- One user whose friend's birthday (Jan 10) has already passed at the
evaluation instant `now6` (100 days into 1970). -/
def db6 : DB :=
  { users := [user1], userprofiles := [profile1], friends := [friend1]
    notifications := [], deviceinfos := [] }

def now6 : Int := 8640000000

/-- The single row of `stage7 db6 now6 tzZero`: the passed birthday is
evaluated against its 1971 occurrence. -/
def row61 : Row7 :=
  { user := user1, userProfile := profile1, friends := friend1
    thisYearBirthday := 777600000, nextYearBirthday := 32313600000
    upcomingBirthday := 32313600000, hoursUntilBirthday := 6576 }

/-- Friend whose stored date of birth is 1970-01-10 05:00:01.234 UTC — a
date of birth with a non-midnight time-of-day component. -/
def friend10 : FriendDoc := { _id := 11, user := 1, name := "F1", dob := 795601234 }

def db10 : DB :=
  { users := [user1], userprofiles := [profile1], friends := [friend10]
    notifications := [], deviceinfos := [] }

/-- 1970-01-09 23:30 UTC: thirty minutes of elapsed time before the
birthday midnight 1970-01-10 00:00 UTC. -/
def now10 : Int := 775800000

/-- The single row of `stage7 db10 now10 tzZero`. -/
def row10 : Row7 :=
  { user := user1, userProfile := profile1, friends := friend10
    thisYearBirthday := 777600000, nextYearBirthday := 32313600000
    upcomingBirthday := 777600000, hoursUntilBirthday := 1 }

/-- An eligible item with push notifications enabled and a device token. -/
def itemTok : IApproachingBirthday :=
  { userId := "1", email := "u1@example.com", token := some "tok1", friendId := "11"
    friendName := "F", hoursUntil := 10, emailNotifications := false
    pushNotifications := true }

/-- A successful submission ticket with receipt id `"r1"`. -/
def ticketR1 : ExpoPushTicket := { status := "ok", id := some "r1", message := none }

/-- A gateway stub whose every submission succeeds, returning one `ticketR1`
per message. -/
def submitOk1 : List ExpoPushMessage → Except String (List ExpoPushTicket) :=
  fun chunk => .ok (chunk.map fun _ => ticketR1)

/-- A ticket store holding, under the batch id `"100"`, the serialization of
the one-ticket array `[ticketR1]` — the store state the spec intends a
dispatch of one successfully submitted message to leave behind. -/
def store100 : String → Option SerializedTickets :=
  fun k => if k = "100" then some { tickets := [ticketR1] } else none

/-- An empty ticket store. -/
def emptyStore : String → Option SerializedTickets := fun _ => none

/-- A gateway stub whose every receipt poll succeeds with an `ok` receipt
per id. -/
def fetchOk : List String → Except String (List (String × PushReceipt)) :=
  fun ids => .ok (ids.map fun i => (i, { status := "ok", message := none, details := none }))

/-- A provider message used to build batches larger than one chunk. -/
def msg0 : ExpoPushMessage := { «to» := some "t", sound := "default", body := "b" }

/-- 101 messages: one more than the provider chunk limit. -/
def msgs101 : List ExpoPushMessage := List.replicate 101 msg0

/-- A per-message ticketing function for the ordering theorem. -/
def tick0 : ExpoPushMessage → ExpoPushTicket := fun _ => ticketR1

/-- A database with every collection empty. -/
def emptyDB : DB :=
  { users := [], userprofiles := [], friends := [], notifications := [], deviceinfos := [] }

/-! ## Helper lemmas -/

/-- Flattening the chunks recovers the input after the pending chunk, as
long as the tracked count agrees with the pending chunk's length. -/
theorem chunkItems_flatten {α : Type} (size : Nat) :
    ∀ (xs chunk : List α) (cnt : Nat), cnt = chunk.length →
      (chunkItems size xs chunk cnt).flatten = chunk.reverse ++ xs := by
  intro xs
  induction xs with
  | nil =>
    intro chunk cnt h
    subst h
    simp only [chunkItems]
    split
    · next hc =>
      have : chunk = [] := List.length_eq_zero.mp (by simpa using hc)
      simp [this]
    · simp
  | cons x xs ih =>
    intro chunk cnt h
    simp only [chunkItems]
    split
    · rw [List.flatten_cons, ih [] 0 rfl]
      simp
    · rw [ih (x :: chunk) (cnt + 1) (by simp [h])]
      simp

/-- The number of chunks produced at limit 100 is the ceiling of the
element count divided by 100. -/
theorem chunkItems100_length {α : Type} :
    ∀ (xs chunk : List α) (cnt : Nat), cnt = chunk.length → cnt < 100 →
      (chunkItems 100 xs chunk cnt).length = (cnt + xs.length + 99) / 100 := by
  intro xs
  induction xs with
  | nil =>
    intro chunk cnt h hlt
    simp only [chunkItems]
    split
    · next hc =>
      have h0 : cnt = 0 := by simpa using hc
      simp only [List.length_nil]
      omega
    · next hc =>
      have h0 : cnt ≠ 0 := by simpa using hc
      simp only [List.length_nil, List.length_cons, List.length_singleton]
      omega
  | cons x xs ih =>
    intro chunk cnt h hlt
    simp only [chunkItems]
    split
    · next hge =>
      rw [List.length_cons, ih [] 0 rfl (by omega)]
      simp only [List.length_nil, List.length_cons]
      omega
    · next hlt2 =>
      rw [ih (x :: chunk) (cnt + 1) (by simp [h]) (by omega)]
      simp only [List.length_cons]
      omega

/-- When every chunk submission succeeds with one ticket per message, the
detached loop collects the per-chunk tickets in chunk order, logs nothing,
and makes one submission call per chunk. -/
theorem runSubmitLoop_allOk (tick : ExpoPushMessage → ExpoPushTicket) :
    ∀ chunks, runSubmitLoop (fun c => .ok (c.map tick)) chunks =
      (chunks.flatten.map tick, [], chunks) := by
  intro chunks
  induction chunks with
  | nil => rfl
  | cons c rest ih => simp [runSubmitLoop, ih]

/-- Every row reaching the device join came through the suppression stage. -/
theorem mem_withDevice_stage10 (db : DB) (now : Int) (tz : String → Int)
    (cutoffHours clearance : Int) :
    ∀ p ∈ withDevice db now tz cutoffHours clearance,
      p.1 ∈ stage10 db now tz cutoffHours clearance := by
  intro p hp
  rcases List.mem_flatMap.mp hp with ⟨r, hr, hpr⟩
  rcases hfe : db.deviceinfos.filter (fun d => d.userId == r.user._id) with _ | ⟨d, ds⟩
  · rw [hfe] at hpr
    have : p = (r, none) := by simpa using hpr
    rw [this]
    exact hr
  · rw [hfe] at hpr
    rcases List.mem_map.mp hpr with ⟨d2, _, hd2⟩
    rw [← hd2]
    exact hr

/-! ## Claim theorems -/

/-- C1 (evaluation at the failing input): dispatching one push-enabled item
whose single-chunk submission succeeds with one ticket stores the
serialization of the EMPTY ticket array, not of the returned ticket — the
cache write on line 206 executes while the unawaited submission loop is
still suspended at its first `await`, so the claim's "store write happens
only after every chunk submission has completed" does not hold of the code:
the detached loop does eventually collect the ticket, but the stored value
never sees it. -/
theorem c1_store_write_precedes_submissions :
    (sendExpoNotifications [itemTok] submitOk1 100).map (fun r => r.storedValue) =
      .ok { tickets := [] } ∧
    (sendExpoNotifications [itemTok] submitOk1 100).map (fun r => r.finalTickets) =
      .ok [ticketR1] ∧
    ({ tickets := [] } : SerializedTickets) ≠ { tickets := [ticketR1] } := by
  exact ⟨rfl, rfl, by decide⟩

/-- C2: no exception or error ever escapes the public entry points — every
call of `sendExpoNotifications` and of `handleExpoReceipts` returns
normally, for every input, submission stub and receipt-fetch stub. -/
theorem c2_no_error_escapes (list : List IApproachingBirthday)
    (submit : List ExpoPushMessage → Except String (List ExpoPushTicket)) (nowMs : Int)
    (cache : String → Option SerializedTickets) (identifier : String)
    (fetch : List String → Except String (List (String × PushReceipt))) :
    (∃ r, sendExpoNotifications list submit nowMs = .ok r) ∧
    ∃ r, handleExpoReceipts cache identifier fetch = .ok r := by
  refine ⟨⟨_, rfl⟩, ?_⟩
  unfold handleExpoReceipts
  cases handleExpoReceiptsBody cache identifier fetch with
  | ok r => exact ⟨r, rfl⟩
  | error e => exact ⟨_, rfl⟩

/-- C3 (counterexample): reconciling a batch id that was already reconciled
once is NOT a no-op.  `store100` holds the tickets of an already-dispatched
batch under id `"100"`; `handleExpoReceipts` never removes the entry
(`reconcileStoreAfter store100 "100" fetchOk` is `store100` itself), so a
second reconciliation of the same id polls the provider again for receipt
chunk `["r1"]` instead of doing nothing. -/
theorem c3_second_reconcile_polls_again :
    (handleExpoReceipts (reconcileStoreAfter store100 "100" fetchOk) "100" fetchOk).map
        (fun r => r.polls) = .ok [["r1"]] ∧
    ([["r1"]] : List (List String)) ≠ [] := by
  exact ⟨rfl, by decide⟩

/-- C3 (amended): calling the reconciler on a batch id absent from the
ticket store raises no error, performs no receipt polling and leaves the
store unchanged — though it is not silent: the caught `JSON.parse` failure
is logged.  Reconciling an already-reconciled id, however, is a no-op only
if the entry has meanwhile been evicted: reconciliation never removes the
entry (second conjunct), so while the entry persists a repeated call reads
the tickets and polls receipts again. -/
theorem c3_absent_id_is_caught_no_op (cache : String → Option SerializedTickets)
    (identifier : String)
    (fetch : List String → Except String (List (String × PushReceipt))) :
    (cache identifier = none →
      (handleExpoReceipts cache identifier fetch).map (fun r => r.polls) = .ok [] ∧
      (handleExpoReceipts cache identifier fetch).map (fun r => r.logs) =
        .ok ["console.error: SyntaxError: Unexpected token u in JSON at position 0"] ∧
      reconcileStoreAfter cache identifier fetch = cache) ∧
    reconcileStoreAfter cache identifier fetch = cache := by
  constructor
  · intro h
    refine ⟨?_, ?_, ?_⟩ <;>
      simp [handleExpoReceipts, handleExpoReceiptsBody, jsonParseTickets,
        reconcileStoreAfter, Except.map, h]
  · unfold reconcileStoreAfter handleExpoReceipts handleExpoReceiptsBody
    cases jsonParseTickets (cache identifier) with
    | error e => rfl
    | ok tickets => rfl

/-- Witness for `c3_absent_id_is_caught_no_op` at the empty store and batch
id `"x"`. -/
theorem c3_absent_id_is_caught_no_op_witness :
    (handleExpoReceipts emptyStore "x" fetchOk).map (fun r => r.polls) = .ok [] ∧
    reconcileStoreAfter emptyStore "x" fetchOk = emptyStore := by
  exact ⟨((c3_absent_id_is_caught_no_op emptyStore "x" fetchOk).1 rfl).1,
    (c3_absent_id_is_caught_no_op emptyStore "x" fetchOk).2⟩

/-- C4: the cutoff filter is boundary-inclusive. A row whose
`hoursUntilBirthday` equals `cutoffHours` survives the `$lte` match stage; a
row at `cutoffHours + 1` is dropped by it; and consequently every tuple the
resolver returns has `hoursUntil ≤ cutoffHours`, so a tuple at
`cutoffHours + 1` never appears in the result. -/
theorem c4_cutoff_boundary_inclusive (db : DB) (now : Int) (tz : String → Int)
    (cutoffHours clearance : Int) (r : Row7) (hr : r ∈ stage7 db now tz) :
    (r.hoursUntilBirthday = cutoffHours → r ∈ stage8 db now tz cutoffHours) ∧
    (r.hoursUntilBirthday = cutoffHours + 1 → r ∉ stage8 db now tz cutoffHours) ∧
    ∀ out ∈ getApproachingBirthdaysRows db now tz cutoffHours clearance,
      out.hoursUntil ≤ cutoffHours := by
  refine ⟨?_, ?_, ?_⟩
  · intro he
    unfold stage8
    rw [List.mem_filter]
    exact ⟨hr, by simp [he]⟩
  · intro he hmem
    unfold stage8 at hmem
    have hd := (List.mem_filter.mp hmem).2
    rw [he] at hd
    have := of_decide_eq_true hd
    omega
  · intro out hout
    rcases List.mem_map.mp hout with ⟨p, hp, hpe⟩
    have h10 := mem_withDevice_stage10 db now tz cutoffHours clearance p hp
    unfold stage10 at h10
    have h8 := (List.mem_filter.mp h10).1
    unfold stage8 at h8
    have hd := of_decide_eq_true (List.mem_filter.mp h8).2
    rw [← hpe]
    simpa [projectRow] using hd

/-- Witness for `c4_cutoff_boundary_inclusive`: in `db4` at instant 0 under
`tzMix` with `cutoffHours = 216`, the row at exactly 216 hours passes the
cutoff stage, the row at 217 hours does not, and the resolver's one output
respects the bound. -/
theorem c4_cutoff_boundary_inclusive_witness :
    row41 ∈ stage8 db4 0 tzMix 216 ∧ row42 ∉ stage8 db4 0 tzMix 216 ∧
    out41.hoursUntil ≤ 216 := by
  refine ⟨?_, ?_, ?_⟩
  · exact (c4_cutoff_boundary_inclusive db4 0 tzMix 216 24 row41 (by decide)).1 (by decide)
  · exact (c4_cutoff_boundary_inclusive db4 0 tzMix 216 24 row42 (by decide)).2.1 (by decide)
  · exact (c4_cutoff_boundary_inclusive db4 0 tzMix 216 24 row41 (by decide)).2.2 out41
      (by decide)

/-- C5: the suppression check is boundary-exclusive with threshold
`now − clearanceHours`: a row that passed the cutoff stage survives the
suppression stage exactly when no notification record for its (user,
friend) pair has `dateSent` strictly greater than the threshold.  Hence a
record sent one minute after the threshold excludes the pair and a record
sent one minute before it does not. -/
theorem c5_clearance_boundary_exclusive (db : DB) (now : Int) (tz : String → Int)
    (cutoffHours clearance : Int) (r : Row7) (hr : r ∈ stage8 db now tz cutoffHours) :
    r ∈ stage10 db now tz cutoffHours clearance ↔
      ∀ n ∈ db.notifications, n.userId = r.userProfile.user → n.friendId = r.friends._id →
        n.dateSent ≤ now - clearance * 3600000 := by
  unfold stage10
  rw [List.mem_filter]
  constructor
  · intro h n hn h1 h2
    have hnil : recentNotifications db now clearance r = [] :=
      List.length_eq_zero.mp (by simpa using h.2)
    by_contra hgt
    push_neg at hgt
    have : n ∈ recentNotifications db now clearance r := by
      unfold recentNotifications
      rw [List.mem_filter]
      exact ⟨hn, by simp [h1, h2, hgt]⟩
    simp [hnil] at this
  · intro h
    refine ⟨hr, ?_⟩
    have hnil : recentNotifications db now clearance r = [] := by
      unfold recentNotifications
      rw [List.filter_eq_nil_iff]
      intro n hn
      simp only [Bool.and_eq_true, beq_iff_eq, decide_eq_true_eq, not_and]
      intro h12
      exact not_lt.mpr (h n hn h12.1 h12.2)
    simp [hnil]

/-- Witness for `c5_clearance_boundary_exclusive`: in `db5` (clearance
threshold `0 − 24h = −86400000`), the pair with a notification sent one
minute after the threshold is excluded, and the pair whose only
notification was sent one minute before the threshold is included. -/
theorem c5_clearance_boundary_exclusive_witness :
    row41 ∉ stage10 db5 0 tzMix 300 24 ∧ row42 ∈ stage10 db5 0 tzMix 300 24 := by
  constructor
  · intro hmem
    have h := (c5_clearance_boundary_exclusive db5 0 tzMix 300 24 row41 (by decide)).mp
      hmem notif1 (by decide) (by decide) (by decide)
    exact absurd h (by decide)
  · exact (c5_clearance_boundary_exclusive db5 0 tzMix 300 24 row42 (by decide)).mpr
      (by decide)

/-- C6: for every row the resolver evaluates, `thisYearBirthday` and
`nextYearBirthday` are the friend's birthday occurrences for the current
and next UTC calendar year in the user's timezone, and the upcoming
occurrence is next year's exactly when this year's is earlier than `now`
(otherwise this year's) — a birthday already passed this year is never
evaluated against this year's date. -/
theorem c6_passed_birthday_uses_next_year (db : DB) (now : Int) (tz : String → Int)
    (r : Row7) (hr : r ∈ stage7 db now tz) :
    r.thisYearBirthday = dateFromParts (yearOfInstant now) (monthOfInstant r.friends.dob)
        (dayOfInstant r.friends.dob) (tz r.userProfile.timezone) ∧
    r.nextYearBirthday = dateFromParts (yearOfInstant now + 1) (monthOfInstant r.friends.dob)
        (dayOfInstant r.friends.dob) (tz r.userProfile.timezone) ∧
    (r.thisYearBirthday < now → r.upcomingBirthday = r.nextYearBirthday) ∧
    (now ≤ r.thisYearBirthday → r.upcomingBirthday = r.thisYearBirthday) := by
  rcases List.mem_map.mp hr with ⟨r3, _, hre⟩
  subst hre
  refine ⟨rfl, rfl, ?_, ?_⟩
  · intro hlt
    have hlt2 : thisYearBirthdayOf now tz r3 < now := hlt
    show upcomingBirthdayOf now tz r3 = nextYearBirthdayOf now tz r3
    unfold upcomingBirthdayOf
    rw [if_pos hlt2]
  · intro hge
    have hge2 : ¬thisYearBirthdayOf now tz r3 < now := not_lt.mpr hge
    show upcomingBirthdayOf now tz r3 = thisYearBirthdayOf now tz r3
    unfold upcomingBirthdayOf
    rw [if_neg hge2]

/-- Witness for `c6_passed_birthday_uses_next_year`: 100 days into 1970 the
Jan-10 birthday has passed, and the row's upcoming occurrence is the 1971
one. -/
theorem c6_passed_birthday_uses_next_year_witness :
    row61.upcomingBirthday = row61.nextYearBirthday := by
  exact (c6_passed_birthday_uses_next_year db6 now6 tzZero row61 (by decide)).2.2.1
    (by decide)

/-- C7: for a batch of more than 100 messages (the provider chunk size),
the detached loop makes exactly `⌈N / 100⌉` submission calls, and when each
submission returns one ticket per message of its chunk, concatenating the
per-chunk results yields the tickets in the original message order across
chunk boundaries. -/
theorem c7_chunk_count_and_order (msgs : List ExpoPushMessage)
    (tick : ExpoPushMessage → ExpoPushTicket) (_hN : 100 < msgs.length) :
    (runSubmitLoop (fun c => .ok (c.map tick)) (chunkPushNotifications msgs)).2.2.length =
      (msgs.length + 99) / 100 ∧
    (runSubmitLoop (fun c => .ok (c.map tick)) (chunkPushNotifications msgs)).1 =
      msgs.map tick := by
  rw [runSubmitLoop_allOk]
  have hflat : (chunkPushNotifications msgs).flatten = msgs := by
    unfold chunkPushNotifications
    simpa using chunkItems_flatten 100 msgs [] 0 rfl
  constructor
  · unfold chunkPushNotifications
    rw [chunkItems100_length msgs [] 0 rfl (by omega)]
    omega
  · rw [hflat]

/-- Witness for `c7_chunk_count_and_order` at 101 identical messages: two
submission calls, tickets in message order. -/
theorem c7_chunk_count_and_order_witness :
    (runSubmitLoop (fun c => .ok (c.map tick0)) (chunkPushNotifications msgs101)).2.2.length =
      2 ∧
    (runSubmitLoop (fun c => .ok (c.map tick0)) (chunkPushNotifications msgs101)).1 =
      List.replicate 101 ticketR1 := by
  have h := c7_chunk_count_and_order msgs101 tick0 (by simp [msgs101])
  constructor
  · rw [h.1]
    simp [msgs101]
  · rw [h.2]
    simp [msgs101, List.map_replicate, tick0]

/-- C8: the dispatcher builds one provider message exactly for the items
with `pushNotifications` true and a present (non-null, non-empty) device
token, in order; each message's destination is the item's token and its
body is the exact interpolated template
`<friendName>'s birthday is <hoursUntil> hours away!`. -/
theorem c8_message_construction (list : List IApproachingBirthday) :
    buildMessages list =
      (list.filter fun item =>
          decide (item.pushNotifications = true ∧ item.token ≠ none ∧
            item.token ≠ some "")).map
        fun item =>
          { «to» := item.token, sound := "default"
            body := item.friendName ++ apostrophe ++ "s birthday is " ++
              toString item.hoursUntil ++ " hours away!" } := by
  unfold buildMessages
  rw [List.filter_congr (fun item _ => ?_)]
  · rfl
  · cases hp : item.pushNotifications with
    | false => simp [hp]
    | true =>
      rcases ht : item.token with _ | s
      · simp [tokenTruthy, hp, ht]
      · rcases eq_or_ne s "" with rfl | hs
        · simp [tokenTruthy, hp, ht]
        · simp [tokenTruthy, hp, ht, hs]

/-- C9: a failed aggregation is caught: the resolver returns the empty
sequence (never propagating the error), logs it, and its return value is
identical to a successful resolution over an empty database — the caller
cannot distinguish failure from a genuinely empty result. -/
theorem c9_resolution_failure_absorbed (e : String) (now : Int) (tz : String → Int)
    (cutoffHours clearance : Int) :
    (getApproachingBirthdays (.error e) now tz cutoffHours clearance).1 = [] ∧
    (getApproachingBirthdays (.error e) now tz cutoffHours clearance).2 =
      ["console.error: " ++ e] ∧
    (getApproachingBirthdays (.error e) now tz cutoffHours clearance).1 =
      (getApproachingBirthdays (.ok emptyDB) now tz cutoffHours clearance).1 := by
  exact ⟨rfl, rfl, rfl⟩

/-- C10 (counterexample): at `now10` (1970-01-09 23:30 UTC), the friend
whose birthday midnight is 30 minutes of elapsed time away gets
`hoursUntilBirthday = 1`, because `$dateDiff` counts the one crossed hour
boundary — but the whole-hour difference from `now` to that midnight
instant is 0.  So `hoursUntil` is not "the whole-hour difference from now
to that midnight instant" as the claim states. -/
theorem c10_hours_until_is_not_whole_hour_difference :
    stage7 db10 now10 tzZero = [row10] ∧
    row10.upcomingBirthday - now10 = 1800000 ∧
    row10.hoursUntilBirthday = 1 ∧
    specWholeHourDifference now10 row10.upcomingBirthday = 0 ∧
    row10.hoursUntilBirthday ≠ specWholeHourDifference now10 row10.upcomingBirthday := by
  refine ⟨by decide, by decide, rfl, by decide, by decide⟩

/-- C10 (amended): the birthday occurrence is built from only the UTC month
and day of the stored date of birth — two dates of birth on the same UTC
calendar day yield the same occurrence, so any time-of-day component is
discarded — at midnight of that day in the user's timezone; and
`hoursUntilBirthday` is the number of hour boundaries (in the user's
timezone) crossed between `now` and that midnight instant, i.e. the
difference of the two instants truncated to the hour — which can exceed the
whole-hour elapsed difference. -/
theorem c10_midnight_and_boundary_count (db : DB) (now : Int) (tz : String → Int)
    (r : Row7) (hr : r ∈ stage7 db now tz) :
    r.thisYearBirthday = dateFromParts (yearOfInstant now) (monthOfInstant r.friends.dob)
        (dayOfInstant r.friends.dob) (tz r.userProfile.timezone) ∧
    (∀ dob1 dob2 y off : Int, Int.fdiv dob1 86400000 = Int.fdiv dob2 86400000 →
      dateFromParts y (monthOfInstant dob1) (dayOfInstant dob1) off =
        dateFromParts y (monthOfInstant dob2) (dayOfInstant dob2) off) ∧
    r.hoursUntilBirthday =
      Int.fdiv (r.upcomingBirthday + tz r.userProfile.timezone * 60000) 3600000 -
        Int.fdiv (now + tz r.userProfile.timezone * 60000) 3600000 := by
  rcases List.mem_map.mp hr with ⟨r3, _, hre⟩
  subst hre
  refine ⟨rfl, ?_, rfl⟩
  intro dob1 dob2 y off h
  unfold monthOfInstant dayOfInstant
  rw [h]

/-- Witness for `c10_midnight_and_boundary_count` at `row10`: the
occurrence built from the 05:00:01.234 date of birth equals the one built
from the midnight date of birth of the same day, and the row's fields
satisfy the characterization. -/
theorem c10_midnight_and_boundary_count_witness :
    row10.thisYearBirthday =
      dateFromParts (yearOfInstant now10) (monthOfInstant friend10.dob)
        (dayOfInstant friend10.dob) 0 ∧
    dateFromParts 1970 (monthOfInstant friend10.dob) (dayOfInstant friend10.dob) 0 =
      dateFromParts 1970 (monthOfInstant 777600000) (dayOfInstant 777600000) 0 ∧
    row10.hoursUntilBirthday =
      Int.fdiv (row10.upcomingBirthday + 0 * 60000) 3600000 -
        Int.fdiv (now10 + 0 * 60000) 3600000 := by
  have h := c10_midnight_and_boundary_count db10 now10 tzZero row10 (by decide)
  exact ⟨h.1, h.2.1 friend10.dob 777600000 1970 0 (by decide), h.2.2⟩
